import Mathlib

/-!
Verification development for the agentui repository (Go).

The development shallowly embeds the protocol layer
(`internal/protocol/types.go`, the protocol `Handler` with its read/write
pumps) and the session state machine (`internal/app/app.go`, with the
interactive components of `internal/ui/components/forms.go`) as executable
Lean definitions, and proves the spec's testable properties about them.

Modelling conventions:
* Decoded JSON documents are represented by the `Json` inductive; JSON
  numbers are modelled as integers (no claim involves fractional values).
* Go's `encoding/json` unmarshalling of the payload structs is translated
  field by field: an object's members are processed in order, a member
  whose value has the wrong type aborts decoding (the fields assigned so
  far are kept, which is observable only for the `done` payload whose
  decode error the reducer ignores), JSON `null` leaves a field unchanged,
  unknown members are skipped.  Go's case-insensitive member fallback is
  not modelled (no claim depends on it).
* Pure presentation state (viewport, spinner animation, widths, lipgloss
  rendering) is omitted; the conversation log keeps the structured payload
  of rendered table/alert entries instead of their ANSI rendering.
* The bubbles `textinput`/`textarea` widgets are external library code and
  are modelled by their string value only.
* Wall-clock timestamps on log entries and errors are omitted.
-/

set_option maxHeartbeats 1000000

namespace AgentUI

/-- A decoded JSON document (a `json.RawMessage` after `json.Unmarshal`
into `any`).  Numbers are narrowed to integers; no claim involves
fractional numeric values. -/
inductive Json where
  | null
  | bool (b : Bool)
  | num (n : Int)
  | str (s : String)
  | arr (elems : List Json)
  | obj (members : List (String × Json))
deriving Repr

/-! ## Payload types (`internal/protocol/types.go`) -/

/-- `protocol.TextPayload`. -/
structure TextPayload where
  content : String := ""
  done : Bool := false
deriving Repr, DecidableEq

/-- `protocol.MarkdownPayload`. -/
structure MarkdownPayload where
  content : String := ""
  title : String := ""
deriving Repr, DecidableEq

/-- `protocol.ProgressStep`. -/
structure ProgressStep where
  label : String := ""
  status : String := ""
  detail : String := ""
deriving Repr, DecidableEq

/-- `protocol.ProgressPayload`; `Percent *float64` is modelled as an
optional integer (no claim involves fractional percentages). -/
structure ProgressPayload where
  message : String := ""
  percent : Option Int := none
  steps : List ProgressStep := []
deriving Repr, DecidableEq

/-- `protocol.FormField`; the `Default any` member holds an arbitrary
decoded JSON value (`Json.null` stands for Go's `nil`). -/
structure FormField where
  name : String := ""
  label : String := ""
  kind : String := ""
  options : List String := []
  defaultVal : Json := .null
  required : Bool := false
  description : String := ""
  placeholder : String := ""
deriving Repr

/-- `protocol.FormPayload`. -/
structure FormPayload where
  title : String := ""
  description : String := ""
  fields : List FormField := []
  submitLabel : String := ""
  cancelLabel : String := ""
deriving Repr

/-- `protocol.TablePayload`; `Columns []any` keeps raw JSON values. -/
structure TablePayload where
  title : String := ""
  columns : List Json := []
  rows : List (List String) := []
  footer : String := ""
deriving Repr

/-- `protocol.CodePayload`. -/
structure CodePayload where
  code : String := ""
  language : String := ""
  title : String := ""
  lineNumbers : Bool := false
deriving Repr, DecidableEq

/-- `protocol.ConfirmPayload`. -/
structure ConfirmPayload where
  message : String := ""
  title : String := ""
  confirmLabel : String := ""
  cancelLabel : String := ""
  destructive : Bool := false
deriving Repr, DecidableEq

/-- `protocol.SelectPayload`. -/
structure SelectPayload where
  label : String := ""
  options : List String := []
  defaultVal : String := ""
deriving Repr, DecidableEq

/-- `protocol.AlertPayload`. -/
structure AlertPayload where
  message : String := ""
  title : String := ""
  severity : String := ""
deriving Repr, DecidableEq

/-- `protocol.TokenInfo`. -/
structure TokenInfo where
  input : Int := 0
  output : Int := 0
deriving Repr, DecidableEq

/-- `protocol.StatusPayload`. -/
structure StatusPayload where
  message : String := ""
  tokens : Option TokenInfo := none
deriving Repr, DecidableEq

/-- `protocol.SpinnerPayload`. -/
structure SpinnerPayload where
  message : String := ""
deriving Repr, DecidableEq

/-- `protocol.ClearPayload`. -/
structure ClearPayload where
  scope : String := ""
deriving Repr, DecidableEq

/-- `protocol.DonePayload`. -/
structure DonePayload where
  summary : String := ""
deriving Repr, DecidableEq

/-- `protocol.Message`, the wire envelope: `payload` is `none` when the
`payload` member is absent (`json.RawMessage` of length zero). -/
structure Message where
  type : String
  id : String := ""
  payload : Option Json := none
deriving Repr

/-! ## `encoding/json` unmarshalling of the payload schemas

`step` functions assign one object member into a partially-filled struct,
returning `none` on a type mismatch (Go's `UnmarshalTypeError`). -/

/-- Process an object's members in order, as `encoding/json` assigns them;
on the first mismatching member stop, keeping the value built so far and
recording failure. -/
def foldMembers {T : Type} (step : T → String → Json → Option T) :
    T → List (String × Json) → T × Bool
  | v, [] => (v, true)
  | v, (k, j) :: rest =>
    match step v k j with
    | some v2 => foldMembers step v2 rest
    | none => (v, false)

/-- Unmarshal a raw payload into a struct: an absent payload is an error
(`unexpected end of JSON input`), JSON `null` is a no-op, a non-object
document is a type error, an object is processed member-wise. -/
def unmarshal {T : Type} (step : T → String → Json → Option T) (zero : T) :
    Option Json → T × Bool
  | none => (zero, false)
  | some .null => (zero, true)
  | some (.obj members) => foldMembers step zero members
  | some _ => (zero, false)

/-- Unmarshal, discarding the partial value on failure (used by every
handler except `done`, which ignores the decode error). -/
def unmarshalOk {T : Type} (step : T → String → Json → Option T) (zero : T)
    (payload : Option Json) : Option T :=
  match unmarshal step zero payload with
  | (v, true) => some v
  | (_, false) => none

/-- Assign a JSON value to a `string` field (null is a no-op). -/
def asStr (j : Json) (cur : String) : Option String :=
  match j with
  | .str s => some s
  | .null => some cur
  | _ => none

/-- Assign a JSON value to a `bool` field (null is a no-op). -/
def asBool (j : Json) (cur : Bool) : Option Bool :=
  match j with
  | .bool b => some b
  | .null => some cur
  | _ => none

/-- Assign a JSON value to an `int` field (null is a no-op). -/
def asInt (j : Json) (cur : Int) : Option Int :=
  match j with
  | .num n => some n
  | .null => some cur
  | _ => none

/-- Decode one element of a `[]string` (null leaves a zero string). -/
def strElem (j : Json) : Option String :=
  match j with
  | .str s => some s
  | .null => some ""
  | _ => none

/-- Assign a JSON value to a `[]string` field (null sets the nil slice). -/
def asStrList (j : Json) (_cur : List String) : Option (List String) :=
  match j with
  | .null => some []
  | .arr xs => xs.mapM strElem
  | _ => none

/-- Decode one row of a `[][]string` (null leaves a nil row). -/
def rowElem (j : Json) : Option (List String) :=
  match j with
  | .null => some []
  | .arr xs => xs.mapM strElem
  | _ => none

/-- Member assignment for `TextPayload`. -/
def TextPayload.step (p : TextPayload) (k : String) (j : Json) : Option TextPayload :=
  match k with
  | "content" => (asStr j p.content).map fun s => { p with content := s }
  | "done" => (asBool j p.done).map fun b => { p with done := b }
  | _ => some p

/-- Member assignment for `MarkdownPayload`. -/
def MarkdownPayload.step (p : MarkdownPayload) (k : String) (j : Json) : Option MarkdownPayload :=
  match k with
  | "content" => (asStr j p.content).map fun s => { p with content := s }
  | "title" => (asStr j p.title).map fun s => { p with title := s }
  | _ => some p

/-- Member assignment for `ProgressStep`. -/
def ProgressStep.step (p : ProgressStep) (k : String) (j : Json) : Option ProgressStep :=
  match k with
  | "label" => (asStr j p.label).map fun s => { p with label := s }
  | "status" => (asStr j p.status).map fun s => { p with status := s }
  | "detail" => (asStr j p.detail).map fun s => { p with detail := s }
  | _ => some p

/-- Decode one element of a `[]ProgressStep`. -/
def progressStepElem (j : Json) : Option ProgressStep :=
  match j with
  | .null => some {}
  | .obj members =>
    match foldMembers ProgressStep.step {} members with
    | (v, true) => some v
    | (_, false) => none
  | _ => none

/-- Member assignment for `ProgressPayload`. -/
def ProgressPayload.step (p : ProgressPayload) (k : String) (j : Json) : Option ProgressPayload :=
  match k with
  | "message" => (asStr j p.message).map fun s => { p with message := s }
  | "percent" =>
    match j with
    | .null => some { p with percent := none }
    | .num n => some { p with percent := some n }
    | _ => none
  | "steps" =>
    match j with
    | .null => some { p with steps := [] }
    | .arr xs => (xs.mapM progressStepElem).map fun ss => { p with steps := ss }
    | _ => none
  | _ => some p

/-- Member assignment for `FormField`. -/
def FormField.step (p : FormField) (k : String) (j : Json) : Option FormField :=
  match k with
  | "name" => (asStr j p.name).map fun s => { p with name := s }
  | "label" => (asStr j p.label).map fun s => { p with label := s }
  | "type" => (asStr j p.kind).map fun s => { p with kind := s }
  | "options" => (asStrList j p.options).map fun xs => { p with options := xs }
  | "default" => some { p with defaultVal := j }
  | "required" => (asBool j p.required).map fun b => { p with required := b }
  | "description" => (asStr j p.description).map fun s => { p with description := s }
  | "placeholder" => (asStr j p.placeholder).map fun s => { p with placeholder := s }
  | _ => some p

/-- Decode one element of a `[]FormField`. -/
def formFieldElem (j : Json) : Option FormField :=
  match j with
  | .null => some {}
  | .obj members =>
    match foldMembers FormField.step {} members with
    | (v, true) => some v
    | (_, false) => none
  | _ => none

/-- Member assignment for `FormPayload`. -/
def FormPayload.step (p : FormPayload) (k : String) (j : Json) : Option FormPayload :=
  match k with
  | "title" => (asStr j p.title).map fun s => { p with title := s }
  | "description" => (asStr j p.description).map fun s => { p with description := s }
  | "fields" =>
    match j with
    | .null => some { p with fields := [] }
    | .arr xs => (xs.mapM formFieldElem).map fun fs => { p with fields := fs }
    | _ => none
  | "submit_label" => (asStr j p.submitLabel).map fun s => { p with submitLabel := s }
  | "cancel_label" => (asStr j p.cancelLabel).map fun s => { p with cancelLabel := s }
  | _ => some p

/-- Member assignment for `TablePayload`. -/
def TablePayload.step (p : TablePayload) (k : String) (j : Json) : Option TablePayload :=
  match k with
  | "title" => (asStr j p.title).map fun s => { p with title := s }
  | "columns" =>
    match j with
    | .null => some { p with columns := [] }
    | .arr xs => some { p with columns := xs }
    | _ => none
  | "rows" =>
    match j with
    | .null => some { p with rows := [] }
    | .arr xs => (xs.mapM rowElem).map fun rs => { p with rows := rs }
    | _ => none
  | "footer" => (asStr j p.footer).map fun s => { p with footer := s }
  | _ => some p

/-- Member assignment for `CodePayload`. -/
def CodePayload.step (p : CodePayload) (k : String) (j : Json) : Option CodePayload :=
  match k with
  | "code" => (asStr j p.code).map fun s => { p with code := s }
  | "language" => (asStr j p.language).map fun s => { p with language := s }
  | "title" => (asStr j p.title).map fun s => { p with title := s }
  | "line_numbers" => (asBool j p.lineNumbers).map fun b => { p with lineNumbers := b }
  | _ => some p

/-- Member assignment for `ConfirmPayload`. -/
def ConfirmPayload.step (p : ConfirmPayload) (k : String) (j : Json) : Option ConfirmPayload :=
  match k with
  | "message" => (asStr j p.message).map fun s => { p with message := s }
  | "title" => (asStr j p.title).map fun s => { p with title := s }
  | "confirm_label" => (asStr j p.confirmLabel).map fun s => { p with confirmLabel := s }
  | "cancel_label" => (asStr j p.cancelLabel).map fun s => { p with cancelLabel := s }
  | "destructive" => (asBool j p.destructive).map fun b => { p with destructive := b }
  | _ => some p

/-- Member assignment for `SelectPayload`. -/
def SelectPayload.step (p : SelectPayload) (k : String) (j : Json) : Option SelectPayload :=
  match k with
  | "label" => (asStr j p.label).map fun s => { p with label := s }
  | "options" => (asStrList j p.options).map fun xs => { p with options := xs }
  | "default" => (asStr j p.defaultVal).map fun s => { p with defaultVal := s }
  | _ => some p

/-- Member assignment for `AlertPayload`. -/
def AlertPayload.step (p : AlertPayload) (k : String) (j : Json) : Option AlertPayload :=
  match k with
  | "message" => (asStr j p.message).map fun s => { p with message := s }
  | "title" => (asStr j p.title).map fun s => { p with title := s }
  | "severity" => (asStr j p.severity).map fun s => { p with severity := s }
  | _ => some p

/-- Member assignment for `TokenInfo`. -/
def TokenInfo.step (p : TokenInfo) (k : String) (j : Json) : Option TokenInfo :=
  match k with
  | "input" => (asInt j p.input).map fun n => { p with input := n }
  | "output" => (asInt j p.output).map fun n => { p with output := n }
  | _ => some p

/-- Member assignment for `StatusPayload` (`Tokens *TokenInfo`: null sets
the nil pointer, an object allocates and fills a `TokenInfo`). -/
def StatusPayload.step (p : StatusPayload) (k : String) (j : Json) : Option StatusPayload :=
  match k with
  | "message" => (asStr j p.message).map fun s => { p with message := s }
  | "tokens" =>
    match j with
    | .null => some { p with tokens := none }
    | .obj members =>
      match foldMembers TokenInfo.step {} members with
      | (v, true) => some { p with tokens := some v }
      | (_, false) => none
    | _ => none
  | _ => some p

/-- Member assignment for `SpinnerPayload`. -/
def SpinnerPayload.step (p : SpinnerPayload) (k : String) (j : Json) : Option SpinnerPayload :=
  match k with
  | "message" => (asStr j p.message).map fun s => { p with message := s }
  | _ => some p

/-- Member assignment for `ClearPayload`. -/
def ClearPayload.step (p : ClearPayload) (k : String) (j : Json) : Option ClearPayload :=
  match k with
  | "scope" => (asStr j p.scope).map fun s => { p with scope := s }
  | _ => some p

/-- Member assignment for `DonePayload`. -/
def DonePayload.step (p : DonePayload) (k : String) (j : Json) : Option DonePayload :=
  match k with
  | "summary" => (asStr j p.summary).map fun s => { p with summary := s }
  | _ => some p

/-- `msg.ParsePayload(&TextPayload{...})`. -/
def unmarshalText (payload : Option Json) : Option TextPayload :=
  unmarshalOk TextPayload.step {} payload

/-- `msg.ParsePayload(&MarkdownPayload{...})`. -/
def unmarshalMarkdown (payload : Option Json) : Option MarkdownPayload :=
  unmarshalOk MarkdownPayload.step {} payload

/-- `msg.ParsePayload(&CodePayload{...})`. -/
def unmarshalCode (payload : Option Json) : Option CodePayload :=
  unmarshalOk CodePayload.step {} payload

/-- `msg.ParsePayload(&TablePayload{...})`. -/
def unmarshalTable (payload : Option Json) : Option TablePayload :=
  unmarshalOk TablePayload.step {} payload

/-- `msg.ParsePayload(&FormPayload{...})`. -/
def unmarshalForm (payload : Option Json) : Option FormPayload :=
  unmarshalOk FormPayload.step {} payload

/-- `msg.ParsePayload(&ConfirmPayload{...})`. -/
def unmarshalConfirm (payload : Option Json) : Option ConfirmPayload :=
  unmarshalOk ConfirmPayload.step {} payload

/-- `msg.ParsePayload(&SelectPayload{...})`. -/
def unmarshalSelect (payload : Option Json) : Option SelectPayload :=
  unmarshalOk SelectPayload.step {} payload

/-- `msg.ParsePayload(&ProgressPayload{...})`. -/
def unmarshalProgress (payload : Option Json) : Option ProgressPayload :=
  unmarshalOk ProgressPayload.step {} payload

/-- `msg.ParsePayload(&AlertPayload{...})`. -/
def unmarshalAlert (payload : Option Json) : Option AlertPayload :=
  unmarshalOk AlertPayload.step {} payload

/-- `msg.ParsePayload(&StatusPayload{...})`. -/
def unmarshalStatus (payload : Option Json) : Option StatusPayload :=
  unmarshalOk StatusPayload.step {} payload

/-- `msg.ParsePayload(&SpinnerPayload{...})`. -/
def unmarshalSpinner (payload : Option Json) : Option SpinnerPayload :=
  unmarshalOk SpinnerPayload.step {} payload

/-- `msg.ParsePayload(&ClearPayload{...})`. -/
def unmarshalClear (payload : Option Json) : Option ClearPayload :=
  unmarshalOk ClearPayload.step {} payload

/-- `msg.ParsePayload(&DonePayload{...})` keeping the partially-assigned
struct together with the success flag: the `done` handler ignores the
decode error and uses whatever was assigned. -/
def unmarshalDone (payload : Option Json) : DonePayload × Bool :=
  unmarshal DonePayload.step {} payload

/-! ## Interactive components (`internal/ui/components/forms.go`) -/

/-- Replace the element at index `i` (no-op when out of range); stands for
Go's in-place `f.Fields[i]` mutations. -/
def listModify {α : Type} (xs : List α) (i : Nat) (g : α → α) : List α :=
  match xs, i with
  | [], _ => []
  | x :: rest, 0 => g x :: rest
  | x :: rest, n + 1 => x :: listModify rest n g

/-- `components.FormField`: the protocol field together with its runtime
state.  The embedded `textinput.Model` (external library) is modelled by
its value. -/
structure FormFieldState where
  name : String := ""
  label : String := ""
  kind : String := ""
  options : List String := []
  required : Bool := false
  description : String := ""
  placeholder : String := ""
  defaultVal : Json := .null
  textValue : String := ""
  selectIndex : Nat := 0
  checked : Bool := false
deriving Repr

/-- `components.Form` (the `width` member is pure presentation and
omitted). -/
structure Form where
  title : String := ""
  description : String := ""
  fields : List FormFieldState := []
  submitLabel : String := ""
  cancelLabel : String := ""
  focusIndex : Nat := 0
  submitted : Bool := false
  cancelled : Bool := false
deriving Repr

/-- Text-backed field kinds, as tested throughout `forms.go`. -/
def isTextKind (t : String) : Bool :=
  t = "" || t = "text" || t = "password" || t = "number"

/-- Initialisation of one field inside `components.NewForm`. -/
def initFormField (f : FormField) : FormFieldState :=
  { name := f.name, label := f.label, kind := f.kind, options := f.options,
    required := f.required, description := f.description,
    placeholder := f.placeholder, defaultVal := f.defaultVal,
    textValue :=
      if isTextKind f.kind then
        match f.defaultVal with
        | .str s => s
        | _ => ""
      else "",
    selectIndex :=
      if f.kind = "select" then
        match f.defaultVal with
        | .str s => (f.options.findIdx? (· = s)).getD 0
        | _ => 0
      else 0,
    checked :=
      if f.kind = "checkbox" then
        match f.defaultVal with
        | .bool b => b
        | _ => false
      else false }

/-- `components.NewForm`. -/
def newForm (p : FormPayload) : Form :=
  { title := p.title, description := p.description,
    fields := p.fields.map initFormField,
    submitLabel := if p.submitLabel = "" then "Submit" else p.submitLabel,
    cancelLabel := if p.cancelLabel = "" then "Cancel" else p.cancelLabel,
    focusIndex := 0 }

/-- `Form.nextField` (the `updateFocus` call only moves the library
text-input focus). -/
def Form.nextField (f : Form) : Form :=
  let i := f.focusIndex + 1
  { f with focusIndex := if i > f.fields.length + 1 then 0 else i }

/-- `Form.prevField`. -/
def Form.prevField (f : Form) : Form :=
  { f with focusIndex :=
      if f.focusIndex = 0 then f.fields.length + 1 else f.focusIndex - 1 }

/-- The key branch of `Form.Update`; `k` is `tea.KeyMsg.String()`.  The
fall-through to the focused text input is external library editing and
leaves the modelled value unchanged. -/
def Form.updateKey (f : Form) (k : String) : Form :=
  if k = "tab" ∨ k = "down" then f.nextField
  else if k = "shift+tab" ∨ k = "up" then f.prevField
  else if k = "enter" then
    if f.focusIndex = f.fields.length then { f with submitted := true }
    else if f.focusIndex = f.fields.length + 1 then { f with cancelled := true }
    else if f.focusIndex < f.fields.length then
      { f with fields := listModify f.fields f.focusIndex fun fld =>
          if fld.kind = "select" ∧ fld.options.length > 0 then
            { fld with selectIndex := (fld.selectIndex + 1) % fld.options.length }
          else if fld.kind = "checkbox" then { fld with checked := !fld.checked }
          else fld }
    else f
  else if k = "left" ∨ k = "right" then
    let f :=
      if f.focusIndex < f.fields.length then
        { f with fields := listModify f.fields f.focusIndex fun fld =>
            if fld.kind = "select" ∧ fld.options.length > 0 then
              if k = "right" then
                { fld with selectIndex := (fld.selectIndex + 1) % fld.options.length }
              else
                { fld with selectIndex :=
                    if fld.selectIndex = 0 then fld.options.length - 1
                    else fld.selectIndex - 1 }
            else fld }
      else f
    let f :=
      if f.focusIndex < f.fields.length ∧
          ((f.fields.getD f.focusIndex {}).kind = "checkbox") then
        { f with fields := listModify f.fields f.focusIndex fun fld =>
            { fld with checked := !fld.checked } }
      else f
    if f.focusIndex ≥ f.fields.length then
      if f.focusIndex = f.fields.length then
        { f with focusIndex := f.fields.length + 1 }
      else { f with focusIndex := f.fields.length }
    else f
  else if k = " " then
    if f.focusIndex < f.fields.length ∧
        ((f.fields.getD f.focusIndex {}).kind = "checkbox") then
      { f with fields := listModify f.fields f.focusIndex fun fld =>
          { fld with checked := !fld.checked } }
    else f
  else if k = "esc" then { f with cancelled := true }
  else f

/-- A form value (`map[string]any` entries are strings or booleans). -/
inductive FormValue where
  | str (s : String)
  | bool (b : Bool)
deriving Repr, DecidableEq

/-- Go map assignment on an insertion-ordered association list. -/
def mapInsert (m : List (String × FormValue)) (k : String) (v : FormValue) :
    List (String × FormValue) :=
  match m with
  | [] => [(k, v)]
  | (k2, v2) :: rest =>
    if k2 = k then (k, v) :: rest else (k2, v2) :: mapInsert rest k v

/-- `Form.GetValues`. -/
def Form.getValues (f : Form) : List (String × FormValue) :=
  f.fields.foldl
    (fun acc fld =>
      if fld.kind = "select" then
        if fld.options.length > 0 ∧ fld.selectIndex < fld.options.length then
          mapInsert acc fld.name (.str (fld.options.getD fld.selectIndex ""))
        else acc
      else if fld.kind = "checkbox" then mapInsert acc fld.name (.bool fld.checked)
      else mapInsert acc fld.name (.str fld.textValue))
    []

/-- `components.ConfirmDialog` (the `width` member is omitted). -/
structure ConfirmDialog where
  title : String := ""
  message : String := ""
  confirmLabel : String := ""
  cancelLabel : String := ""
  destructive : Bool := false
  focusConfirm : Bool := true
  confirmed : Bool := false
  responded : Bool := false
deriving Repr, DecidableEq

/-- `components.NewConfirmDialog`. -/
def newConfirmDialog (p : ConfirmPayload) : ConfirmDialog :=
  { title := p.title, message := p.message,
    confirmLabel := if p.confirmLabel = "" then "Yes" else p.confirmLabel,
    cancelLabel := if p.cancelLabel = "" then "No" else p.cancelLabel,
    destructive := p.destructive, focusConfirm := true }

/-- The key branch of `ConfirmDialog.Update`. -/
def ConfirmDialog.updateKey (c : ConfirmDialog) (k : String) : ConfirmDialog :=
  if k = "left" ∨ k = "right" ∨ k = "tab" ∨ k = "h" ∨ k = "l" then
    { c with focusConfirm := !c.focusConfirm }
  else if k = "y" then { c with confirmed := true, responded := true }
  else if k = "n" ∨ k = "esc" then { c with confirmed := false, responded := true }
  else if k = "enter" then { c with confirmed := c.focusConfirm, responded := true }
  else c

/-- `components.SelectMenu` (the `width` member is omitted). -/
structure SelectMenu where
  label : String := ""
  options : List String := []
  defaultVal : String := ""
  selectedIndex : Nat := 0
  responded : Bool := false
  cancelled : Bool := false
deriving Repr, DecidableEq

/-- `components.NewSelectMenu`. -/
def newSelectMenu (p : SelectPayload) : SelectMenu :=
  { label := p.label, options := p.options, defaultVal := p.defaultVal,
    selectedIndex :=
      if p.defaultVal ≠ "" then (p.options.findIdx? (· = p.defaultVal)).getD 0
      else 0 }

/-- The key branch of `SelectMenu.Update`. -/
def SelectMenu.updateKey (s : SelectMenu) (k : String) : SelectMenu :=
  if k = "up" ∨ k = "k" then
    if s.selectedIndex > 0 then { s with selectedIndex := s.selectedIndex - 1 } else s
  else if k = "down" ∨ k = "j" then
    if s.selectedIndex < s.options.length - 1 then
      { s with selectedIndex := s.selectedIndex + 1 }
    else s
  else if k = "enter" then { s with responded := true }
  else if k = "esc" then { s with cancelled := true, responded := true }
  else s

/-- `SelectMenu.GetSelected`. -/
def SelectMenu.getSelected (s : SelectMenu) : String :=
  if s.cancelled ∨ s.options.length = 0 then ""
  else s.options.getD s.selectedIndex ""

/-! ## Session state machine (`internal/app/app.go`) -/

/-- `app.State`. -/
inductive State where
  | chat
  | form
  | confirm
  | select
  | error
deriving Repr, DecidableEq

/-- The content of one conversation-log entry.  Text entries hold their
string; table and alert entries are rendered views in Go
(`m.tableView.View()`, `m.alertView.View()`) and keep their structured
payload here, since rendering is pure presentation. -/
inductive ChatContent where
  | plain (s : String)
  | renderedTable (p : TablePayload)
  | renderedAlert (p : AlertPayload)
deriving Repr

/-- `app.Message` (chat log entry; the wall-clock timestamp is omitted). -/
structure ChatMessage where
  role : String
  content : ChatContent
  isCode : Bool := false
  language : String := ""
deriving Repr

/-- `app.ErrorInfo` (the wall-clock timestamp is omitted). -/
structure ErrorInfo where
  message : String
  details : String
  retryable : Bool
deriving Repr, DecidableEq

/-- `views.ProgressView`, restricted to the data set by the reducer. -/
structure ProgressView where
  message : String := ""
  percent : Int := 0
  steps : List ProgressStep := []
deriving Repr, DecidableEq

/-- Outbound messages written through the protocol handler's `Send*`
helpers; `formResponse` carries `none` for the nil values map sent on
cancellation. -/
inductive OutMessage where
  | input (content : String)
  | formResponse (id : String) (values : Option (List (String × FormValue)))
  | confirmResponse (id : String) (confirmed : Bool)
  | selectResponse (id : String) (value : String)
  | cancel
  | quit
  | resize (width height : Int)
deriving Repr, DecidableEq

/-- Commands returned by `Update` that affect the consumer loop: continue
listening on the protocol channels, or quit the program.  Rendering
commands (blink, spinner tick) are omitted. -/
inductive Cmd where
  | listen
  | quit
deriving Repr, DecidableEq

/-- `app.Model`.  Pure presentation members (viewport, spinner, views,
width/height, `ready`, `appName`, `appTagline`) are omitted; the
`textarea` input is modelled by its string value; `currentProgress` is a
pointer that is either nil or `m.progressView`, modelled by a presence
flag. -/
structure Model where
  state : State
  quitting : Bool := false
  input : String := ""
  messages : List ChatMessage := []
  streamingText : String := ""
  isStreaming : Bool := false
  currentForm : Option Form := none
  currentFormID : String := ""
  currentConfirm : Option ConfirmDialog := none
  currentConfirmID : String := ""
  currentSelect : Option SelectMenu := none
  currentSelectID : String := ""
  progressView : ProgressView := {}
  currentProgress : Bool := false
  lastError : Option ErrorInfo := none
  statusMessage : String := ""
  tokenInfo : Option TokenInfo := none
  debugMode : Bool := false
deriving Repr

/-- `app.NewModel` (handler and app name/tagline are I/O and presentation;
every modelled member starts at its Go zero value, with `state =
StateChat`). -/
def newModel : Model :=
  { state := .chat }

/-- The `tea.Msg` values consumed by `Model.Update`: key presses (by their
`String()` form), window resizes, the protocol messages
(`protocolMsg`, `protocolErrorMsg`, `connectionClosedMsg`,
`clearErrorMsg`), and `tick` standing for every message kind that falls
through the type switch to the per-state component update (spinner ticks,
blink messages, ...). -/
inductive TeaMsg where
  | key (k : String)
  | windowSize (width height : Int)
  | protocol (msg : Message)
  | protocolError (e : String)
  | connectionClosed
  | clearError
  | tick
deriving Repr

/-- `Model.setError`. -/
def Model.setError (m : Model) (message details : String) (retryable : Bool) : Model :=
  { m with lastError := some ⟨message, details, retryable⟩, state := .error }

/-- The external `textinput`/`textarea` editing, modelled on the string
value only: a single-character key appends (cursor at the end), everything
else leaves the value unchanged. -/
def textareaUpdate (value : String) (msg : TeaMsg) : String :=
  match msg with
  | .key k => if k.length = 1 then value ++ k else value
  | _ => value

/-- The details string of a payload decode failure is produced by
`encoding/json` (`err.Error()`); the text itself is library output and is
not modelled. -/
def decodeErrDetails : String := ""

/-- `Model.handleProtocolMsg`.  Every branch returns
`(m', m.listenForMessages())`; emitted outbound messages are collected in
the middle component (this handler sends none). -/
def Model.handleProtocolMsg (m : Model) (msg : Message) :
    Model × List OutMessage × Option Cmd :=
  let ret := fun (m2 : Model) => (m2, ([] : List OutMessage), some Cmd.listen)
  match msg.type with
  | "text" =>
    match unmarshalText msg.payload with
    | none => ret (m.setError "Invalid text payload" decodeErrDetails false)
    | some p =>
      let st := m.streamingText ++ p.content
      if p.done then
        ret { m with
          messages := m.messages ++ [⟨"assistant", .plain st, false, ""⟩],
          streamingText := "", isStreaming := false }
      else ret { m with streamingText := st }
  | "markdown" =>
    match unmarshalMarkdown msg.payload with
    | none => ret (m.setError "Invalid markdown payload" decodeErrDetails false)
    | some p =>
      ret { m with messages := m.messages ++ [⟨"assistant", .plain p.content, false, ""⟩] }
  | "code" =>
    match unmarshalCode msg.payload with
    | none => ret (m.setError "Invalid code payload" decodeErrDetails false)
    | some p =>
      ret { m with messages := m.messages ++ [⟨"assistant", .plain p.code, true, p.language⟩] }
  | "table" =>
    match unmarshalTable msg.payload with
    | none => ret (m.setError "Invalid table payload" decodeErrDetails false)
    | some p =>
      ret { m with messages := m.messages ++ [⟨"system", .renderedTable p, false, ""⟩] }
  | "form" =>
    match unmarshalForm msg.payload with
    | none => ret (m.setError "Invalid form payload" decodeErrDetails false)
    | some p =>
      ret { m with currentForm := some (newForm p), currentFormID := msg.id,
                   state := .form }
  | "confirm" =>
    match unmarshalConfirm msg.payload with
    | none => ret (m.setError "Invalid confirm payload" decodeErrDetails false)
    | some p =>
      ret { m with currentConfirm := some (newConfirmDialog p),
                   currentConfirmID := msg.id, state := .confirm }
  | "select" =>
    match unmarshalSelect msg.payload with
    | none => ret (m.setError "Invalid select payload" decodeErrDetails false)
    | some p =>
      ret { m with currentSelect := some (newSelectMenu p),
                   currentSelectID := msg.id, state := .select }
  | "progress" =>
    match unmarshalProgress msg.payload with
    | none => ret (m.setError "Invalid progress payload" decodeErrDetails false)
    | some p =>
      let pv : ProgressView :=
        { message := p.message,
          percent := p.percent.getD (-1),
          steps := if p.steps.length > 0 then p.steps else m.progressView.steps }
      ret { m with progressView := pv, currentProgress := true,
                   statusMessage := p.message }
  | "alert" =>
    match unmarshalAlert msg.payload with
    | none => ret (m.setError "Invalid alert payload" decodeErrDetails false)
    | some p =>
      ret { m with messages := m.messages ++ [⟨"system", .renderedAlert p, false, ""⟩] }
  | "status" =>
    match unmarshalStatus msg.payload with
    | none => ret (m.setError "Invalid status payload" decodeErrDetails false)
    | some p => ret { m with statusMessage := p.message, tokenInfo := p.tokens }
  | "spinner" =>
    match unmarshalSpinner msg.payload with
    | none => ret (m.setError "Invalid spinner payload" decodeErrDetails false)
    | some p => ret { m with statusMessage := p.message, isStreaming := true }
  | "clear" =>
    match unmarshalClear msg.payload with
    | none => ret (m.setError "Invalid clear payload" decodeErrDetails false)
    | some p =>
      let m := if p.scope = "chat" ∨ p.scope = "all" then { m with messages := [] } else m
      let m := if p.scope = "progress" ∨ p.scope = "all" then { m with currentProgress := false } else m
      ret m
  | "done" =>
    let p := (unmarshalDone msg.payload).1
    ret { m with isStreaming := false, currentProgress := false,
                 statusMessage := if p.summary ≠ "" then p.summary else "Ready" }
  | _ => ret m

/-- `Model.handleChatKeys`. -/
def Model.handleChatKeys (m : Model) (k : String) :
    Model × List OutMessage × Option Cmd :=
  match k with
  | "esc" =>
    if m.isStreaming then
      ({ m with isStreaming := false, statusMessage := "Cancelled" },
       [OutMessage.cancel], none)
    else (m, [], none)
  | "ctrl+l" => ({ m with messages := [] }, [], none)
  | "ctrl+d" => ({ m with debugMode := !m.debugMode }, [], none)
  | "pgup" => (m, [], none)
  | "pgdown" => (m, [], none)
  | "enter" =>
    if m.isStreaming then (m, [], none)
    else
      let content := m.input.trim
      if content ≠ "" then
        ({ m with
            messages := m.messages ++ [⟨"user", .plain content, false, ""⟩],
            input := "", isStreaming := true, statusMessage := "Thinking..." },
         [OutMessage.input content], none)
      else (m, [], none)
  | _ => ({ m with input := textareaUpdate m.input (.key k) }, [], none)

/-- `Model.handleKeyMsg`: only the chat state handles keys; every other
state falls through to `return m, nil`. -/
def Model.handleKeyMsg (m : Model) (k : String) :
    Model × List OutMessage × Option Cmd :=
  match m.state with
  | .chat => m.handleChatKeys k
  | _ => (m, [], none)

/-- `Form.Update` on an arbitrary `tea.Msg`: only key messages reach the
key switch; other messages only touch the external text input. -/
def Form.updateMsg (f : Form) (msg : TeaMsg) : Form :=
  match msg with
  | .key k => f.updateKey k
  | _ => f

/-- `ConfirmDialog.Update` on an arbitrary `tea.Msg`. -/
def ConfirmDialog.updateMsg (c : ConfirmDialog) (msg : TeaMsg) : ConfirmDialog :=
  match msg with
  | .key k => c.updateKey k
  | _ => c

/-- `SelectMenu.Update` on an arbitrary `tea.Msg`. -/
def SelectMenu.updateMsg (s : SelectMenu) (msg : TeaMsg) : SelectMenu :=
  match msg with
  | .key k => s.updateKey k
  | _ => s

/-- The per-state component-update section at the bottom of
`Model.Update`: update the active component with the message, then check
whether it resolved and, if so, send the correlated response and return to
the chat state. -/
def Model.componentUpdate (m : Model) (msg : TeaMsg) :
    Model × List OutMessage × Option Cmd :=
  match m.state with
  | .chat => ({ m with input := textareaUpdate m.input msg }, [], none)
  | .form =>
    match m.currentForm with
    | none => (m, [], none)
    | some f0 =>
      let f := f0.updateMsg msg
      if f.submitted then
        ({ m with state := .chat, currentForm := none },
         [OutMessage.formResponse m.currentFormID (some f.getValues)], none)
      else if f.cancelled then
        ({ m with state := .chat, currentForm := none },
         [OutMessage.formResponse m.currentFormID none], none)
      else ({ m with currentForm := some f }, [], none)
  | .confirm =>
    match m.currentConfirm with
    | none => (m, [], none)
    | some c0 =>
      let c := c0.updateMsg msg
      if c.responded then
        ({ m with state := .chat, currentConfirm := none },
         [OutMessage.confirmResponse m.currentConfirmID c.confirmed], none)
      else ({ m with currentConfirm := some c }, [], none)
  | .select =>
    match m.currentSelect with
    | none => (m, [], none)
    | some s0 =>
      let s := s0.updateMsg msg
      if s.responded then
        ({ m with state := .chat, currentSelect := none },
         [OutMessage.selectResponse m.currentSelectID s.getSelected], none)
      else ({ m with currentSelect := some s }, [], none)
  | .error => (m, [], none)

/-- `Model.Update`.  The `tea.KeyMsg` case returns through
`handleKeyMsg` without ever reaching the component-update section; the
resize notification and outbound sends are modelled as succeeding
writes. -/
def Model.update (m : Model) (msg : TeaMsg) :
    Model × List OutMessage × Option Cmd :=
  match msg with
  | .key k =>
    if k = "ctrl+c" then
      ({ m with quitting := true }, [OutMessage.quit], some Cmd.quit)
    else
      let m := if m.state = .error ∧ k ≠ "" then
                 { m with state := .chat, lastError := none }
               else m
      m.handleKeyMsg k
  | .windowSize w h => (m, [OutMessage.resize w h], none)
  | .protocol pm => m.handleProtocolMsg pm
  | .protocolError e => (m.setError "Protocol error" e true, [], some Cmd.listen)
  | .connectionClosed =>
    (m.setError "Connection closed" "The Python process has disconnected" false,
     [], none)
  | .clearError =>
    (if m.state = .error then { m with state := .chat, lastError := none } else m,
     [], none)
  | .tick => m.componentUpdate .tick

/-! ## Transport (`internal/protocol/handler.go`) -/

/-- The error value returned by a failing `bufio.Reader.ReadBytes` call:
end of file, or another I/O failure carrying its message. -/
inductive IOError where
  | eof
  | other (msg : String)
deriving Repr, DecidableEq

/-- The observable outcome of `Handler.readLoop` on a whole input stream:
the envelopes delivered on `incoming`, the decode/I/O failures reported on
`errors`, whether `incoming` was closed (the deferred `close`), and
whether the loop stopped the whole transport (closed `done`) — it never
does. -/
structure ReadOutcome where
  delivered : List Message
  reported : List String
  incomingClosed : Bool
  stopCalled : Bool
deriving Repr

/-- The blank-line test of `readLoop`:
`len(line) == 0 || (len(line) == 1 && line[0] == newline)`. -/
def isBlankLine (s : String) : Bool :=
  s = "" || s = "\n"

/-- `Handler.readLoop`.  The byte stream is presented as the successful
line reads followed by the terminating read error (a read after the
error keeps failing, so the loop's behaviour is fully determined by this
shape).  `decodeLine` is `json.Unmarshal` into a `Message`, left abstract:
the claims about the loop quantify over it.  A final partial line returned
together with the read error is discarded by the loop (the error is
checked first). -/
def readLoop (decodeLine : String → Except String Message) :
    List String → IOError → ReadOutcome
  | [], e =>
    { delivered := [],
      reported := match e with | .eof => [] | .other s => [s],
      incomingClosed := true, stopCalled := false }
  | line :: rest, e =>
    if isBlankLine line then readLoop decodeLine rest e
    else
      match decodeLine line with
      | .error err =>
        let o := readLoop decodeLine rest e
        { o with reported := err :: o.reported }
      | .ok msg =>
        let o := readLoop decodeLine rest e
        { o with delivered := msg :: o.delivered }

/-- The goroutine-visible state of `protocol.Handler`: `Start` runs
`go h.readLoop()` and `go h.writeLoop()`, modelled by counting the
launched pumps; `Stop` closes the `done` channel. -/
structure Handler where
  readPumps : Nat := 0
  writePumps : Nat := 0
  doneClosed : Bool := false
deriving Repr, DecidableEq

/-- `protocol.NewHandler` (channel plumbing is modelled separately by
`Channels`). -/
def newHandler : Handler := {}

/-- `Handler.Start`. -/
def Handler.start (h : Handler) : Handler :=
  { h with readPumps := h.readPumps + 1, writePumps := h.writePumps + 1 }

/-- `Handler.Stop`. -/
def Handler.stop (h : Handler) : Handler :=
  { h with doneClosed := true }

/-! ## The consumer loop (`listenForMessages` and the bubbletea driver) -/

/-- The state of the handler's channels as seen by `listenForMessages`:
the buffered messages still in `incoming`, whether the read pump has
closed `incoming`, and the buffered errors in `errors`. -/
structure Channels where
  incoming : List Message := []
  incomingClosed : Bool := false
  errors : List String := []
deriving Repr

/-- Receive on `h.Incoming()`: buffered messages are delivered even after
the close; a receive on the closed, drained channel reports `!ok`, which
`listenForMessages` turns into `connectionClosedMsg`. -/
def recvIncoming (ch : Channels) : Option (TeaMsg × Channels) :=
  match ch.incoming with
  | msg :: rest => some (.protocol msg, { ch with incoming := rest })
  | [] =>
    if ch.incomingClosed then some (.connectionClosed, ch) else none

/-- Receive on `h.Errors()`. -/
def recvError (ch : Channels) : Option (TeaMsg × Channels) :=
  match ch.errors with
  | e :: rest => some (.protocolError e, { ch with errors := rest })
  | [] => none

/-- One `listenForMessages` poll: a `select` over the two channels.  When
both are ready the runtime chooses; `pickError` resolves that choice.
`none` means the select blocks (no event yet). -/
def listenOnce (ch : Channels) (pickError : Bool) : Option (TeaMsg × Channels) :=
  match recvIncoming ch, recvError ch with
  | some r, none => some r
  | none, some r => some r
  | some ri, some re => some (if pickError then re else ri)
  | none, none => none

/-- The bubbletea consumer loop, driven while the model keeps returning
the `listen` command (as `Init` and every protocol branch do): poll once,
deliver the event to `Model.Update`, and continue only when the returned
command listens again.  The schedule list supplies the `select` choices
and bounds the run.  Returns the events delivered to the reducer. -/
def runLoop (m : Model) (ch : Channels) : List Bool → List TeaMsg
  | [] => []
  | pick :: rest =>
    match listenOnce ch pick with
    | none => []
    | some (ev, ch2) =>
      ev :: (match (m.update ev).2.2 with
             | some Cmd.listen => runLoop (m.update ev).1 ch2 rest
             | _ => [])

/-- Count the `connectionClosedMsg` events in a delivered event list. -/
def countClosed (evs : List TeaMsg) : Nat :=
  evs.countP fun ev => match ev with | TeaMsg.connectionClosed => true | _ => false

/-! ## Derived notions used by the statements -/

/-- The recognized message types whose handler parses a payload and whose
decode failure is surfaced via `setError` (every payload-parsing branch of
`handleProtocolMsg` except `done`). -/
def schemaErrorTypes : List String :=
  ["text", "markdown", "code", "table", "form", "confirm", "select",
   "progress", "alert", "status", "spinner", "clear"]

/-- Whether a payload decodes under the schema of the given message type
(`true` for types without a schema check). -/
def payloadDecodes : String → Option Json → Bool
  | "text", p => (unmarshalText p).isSome
  | "markdown", p => (unmarshalMarkdown p).isSome
  | "code", p => (unmarshalCode p).isSome
  | "table", p => (unmarshalTable p).isSome
  | "form", p => (unmarshalForm p).isSome
  | "confirm", p => (unmarshalConfirm p).isSome
  | "select", p => (unmarshalSelect p).isSome
  | "progress", p => (unmarshalProgress p).isSome
  | "alert", p => (unmarshalAlert p).isSome
  | "status", p => (unmarshalStatus p).isSome
  | "spinner", p => (unmarshalSpinner p).isSome
  | "clear", p => (unmarshalClear p).isSome
  | "done", p => (unmarshalDone p).2
  | _, _ => true

/-- The `setError` message literal used by each payload-parsing branch:
`Invalid text payload`, `Invalid form payload`, and so on. -/
def invalidPayloadMessage (t : String) : String :=
  "Invalid " ++ t ++ " payload"

/-- The envelope produced by a successful line decode, if any. -/
def decodeOkOf (r : Except String Message) : Option Message :=
  match r with
  | .ok msg => some msg
  | .error _ => none

/-- The error reported by a failing line decode, if any. -/
def decodeErrOf (r : Except String Message) : Option String :=
  match r with
  | .error e => some e
  | .ok _ => none

/-! ## Concrete protocol inputs used by witnesses and counterexamples -/

/-- A streaming text chunk `content = Hel`, `done = false`. -/
def textMsgHel : Message :=
  { type := "text",
    payload := some (.obj [("content", .str "Hel"), ("done", .bool false)]) }

/-- A streaming text chunk `content = lo`, `done = true`. -/
def textMsgLo : Message :=
  { type := "text",
    payload := some (.obj [("content", .str "lo"), ("done", .bool true)]) }

/-- A well-formed form request with correlation id `A`. -/
def formMsgA : Message :=
  { type := "form", id := "A",
    payload := some (.obj [("title", .str "TA"),
      ("fields", .arr [.obj [("name", .str "city"), ("label", .str "City"),
        ("type", .str "text")]])]) }

/-- A well-formed form request with correlation id `B`. -/
def formMsgB : Message :=
  { type := "form", id := "B",
    payload := some (.obj [("title", .str "TB"), ("fields", .arr [])]) }

/-- A well-formed form request with correlation id `abc123` and one text
field. -/
def formMsgAbc : Message :=
  { type := "form", id := "abc123",
    payload := some (.obj [("fields", .arr [.obj [("name", .str "city"),
      ("type", .str "text"), ("default", .str "Oslo")]])]) }

/-- A form envelope whose payload fails the schema: `fields` holds the
string `not-an-array` instead of an array. -/
def badFormMsg : Message :=
  { type := "form", payload := some (.obj [("fields", .str "not-an-array")]) }

/-- A markdown envelope whose payload fails the schema: `content` holds a
number. -/
def badMarkdownMsg : Message :=
  { type := "markdown", payload := some (.obj [("content", .num 3)]) }

/-- A done envelope whose payload fails the schema: `summary` holds a
number. -/
def badDoneMsg : Message :=
  { type := "done", payload := some (.obj [("summary", .num 5)]) }

/-- A clear request with scope `chat`. -/
def clearChatMsg : Message :=
  { type := "clear", payload := some (.obj [("scope", .str "chat")]) }

/-- A session state in `ErrorDisplay` while a form request is pending
(the shape reached by `formMsgA` followed by `badMarkdownMsg`). -/
def preC4 : Model :=
  { newModel with state := .error, currentForm := some (newForm {}),
                  currentFormID := "A",
                  lastError := some ⟨"Invalid markdown payload", "", false⟩ }

/-- A session state with a pending form, a nonempty conversation log and a
nonempty streaming buffer. -/
def preC5 : Model :=
  { newModel with state := .form, currentForm := some (newForm {}),
                  currentFormID := "A", streamingText := "buf",
                  messages := [⟨"user", .plain "hi", false, ""⟩] }

/-! ## Helper lemmas -/

/-- An option with `isSome = false` is `none`. -/
theorem isSome_false_eq_none {α : Type} {o : Option α} (h : o.isSome = false) :
    o = none := by
  cases o <;> simp_all

/-- Every payload-parsing branch of `handleProtocolMsg` other than `done`
turns a payload decode failure into exactly the `setError` transition:
only `state` and `lastError` change, the error is non-retryable, and no
outbound message is emitted. -/
theorem handleProtocolMsg_badPayload (m : Model) (msg : Message)
    (ht : msg.type ∈ schemaErrorTypes)
    (hd : payloadDecodes msg.type msg.payload = false) :
    m.handleProtocolMsg msg =
      ({ m with
          state := .error,
          lastError := some ⟨invalidPayloadMessage msg.type, decodeErrDetails, false⟩ },
       [], some Cmd.listen) := by
  obtain ⟨t, mid, p⟩ := msg
  simp only [schemaErrorTypes, List.mem_cons, List.not_mem_nil, or_false] at ht
  rcases ht with rfl | rfl | rfl | rfl | rfl | rfl | rfl | rfl | rfl | rfl | rfl | rfl <;>
    simp only [payloadDecodes] at hd <;>
    simp [Model.handleProtocolMsg, isSome_false_eq_none hd, Model.setError,
      invalidPayloadMessage]

/-- Prepending a non-`connectionClosed` event does not change the closed
count. -/
theorem countClosed_cons_ne (ev : TeaMsg) (l : List TeaMsg)
    (h : ev ≠ TeaMsg.connectionClosed) :
    countClosed (ev :: l) = countClosed l := by
  cases ev <;> simp [countClosed, List.countP_cons] at h ⊢

/-- Prepending a `connectionClosed` event increments the closed count. -/
theorem countClosed_closed_cons (l : List TeaMsg) :
    countClosed (TeaMsg.connectionClosed :: l) = countClosed l + 1 := by
  simp [countClosed, List.countP_cons]

/-- The consumer loop delivers at most one `connectionClosedMsg`, for every
starting model, channel state and select schedule: once the closed event is
processed, `Update` returns no `listen` command and the loop never polls
again. -/
theorem single_closed_aux (m : Model) (ch : Channels) (sched : List Bool) :
    countClosed (runLoop m ch sched) ≤ 1 := by
  induction sched generalizing m ch with
  | nil => simp [runLoop, countClosed]
  | cons pick rest ih =>
    simp only [runLoop]
    cases h : listenOnce ch pick with
    | none => simp [countClosed]
    | some r =>
      obtain ⟨ev, ch2⟩ := r
      dsimp only
      by_cases hev : ev = TeaMsg.connectionClosed
      · subst hev
        have hnone : (m.update TeaMsg.connectionClosed).2.2 = none := rfl
        rw [hnone]
        simp [countClosed_closed_cons, countClosed]
      · rw [countClosed_cons_ne ev _ hev]
        cases hc : (m.update ev).2.2 with
        | none => simp [countClosed]
        | some c =>
          cases c with
          | listen => exact ih _ _
          | quit => simp [countClosed]

/-- `handleChatKeys` never touches the mode, the pending interactive
requests, their correlation ids, or the error state. -/
theorem handleChatKeys_preserves (m : Model) (k : String) :
    (m.handleChatKeys k).1.state = m.state
    ∧ (m.handleChatKeys k).1.currentForm = m.currentForm
    ∧ (m.handleChatKeys k).1.currentFormID = m.currentFormID
    ∧ (m.handleChatKeys k).1.currentConfirm = m.currentConfirm
    ∧ (m.handleChatKeys k).1.currentConfirmID = m.currentConfirmID
    ∧ (m.handleChatKeys k).1.currentSelect = m.currentSelect
    ∧ (m.handleChatKeys k).1.currentSelectID = m.currentSelectID
    ∧ (m.handleChatKeys k).1.lastError = m.lastError := by
  unfold Model.handleChatKeys
  split <;> (try split) <;> simp
  split <;> simp

/-! ## Claims -/

/-- Claim C1: evaluating the code at the failing input.  With a form
request `A` already pending, the reducer processes a second well-formed
form request `B` by replacing the stored pending form and its correlation
id in place — the stored id becomes `B`, the stored widget becomes the one
built from `B`'s payload — while emitting no outbound message for either
request (no queueing, no busy response).  The claim requires queue-or-busy
and forbids exactly this silent replacement. -/
theorem busy_policy_silent_replacement :
    (newModel.update (.protocol formMsgA)).1.currentFormID = "A"
    ∧ (newModel.update (.protocol formMsgA)).1.state = State.form
    ∧ ((newModel.update (.protocol formMsgA)).1.currentForm.map Form.title) = some "TA"
    ∧ (newModel.update (.protocol formMsgA)).2.1 = []
    ∧ ((newModel.update (.protocol formMsgA)).1.update (.protocol formMsgB)).1.currentFormID = "B"
    ∧ (((newModel.update (.protocol formMsgA)).1.update (.protocol formMsgB)).1.currentForm.map Form.title) = some "TB"
    ∧ ((newModel.update (.protocol formMsgA)).1.update (.protocol formMsgB)).1.state = State.form
    ∧ ((newModel.update (.protocol formMsgA)).1.update (.protocol formMsgB)).2.1 = [] := by
  decide

/-- Claim C2: evaluating the code at the failing input.  A form request
with id `abc123` stores the id and enters the form mode, but the key
presses that would navigate to the Submit button and press it (`tab`,
`enter`) are routed through `handleKeyMsg`, which ignores every state but
the chat state: the form's focus never moves, the form is never
submitted, the session stays in the form mode, and no outbound message
(in particular no `form_response`) is ever emitted. -/
theorem form_submission_keys_never_dispatched :
    (newModel.update (.protocol formMsgAbc)).1.currentFormID = "abc123"
    ∧ (newModel.update (.protocol formMsgAbc)).1.state = State.form
    ∧ (((newModel.update (.protocol formMsgAbc)).1.update (.key "tab")).1.currentForm.map Form.focusIndex) = some 0
    ∧ ((newModel.update (.protocol formMsgAbc)).1.update (.key "tab")).2.1 = []
    ∧ ((((newModel.update (.protocol formMsgAbc)).1.update (.key "tab")).1.update (.key "enter")).1.currentForm.map Form.submitted) = some false
    ∧ (((newModel.update (.protocol formMsgAbc)).1.update (.key "tab")).1.update (.key "enter")).2.1 = []
    ∧ (((newModel.update (.protocol formMsgAbc)).1.update (.key "tab")).1.update (.key "enter")).1.state = State.form := by
  decide

/-- Claim C3: a text chunk with `done = true` finalizes the accumulated
streaming buffer (including that chunk's content) into exactly one new
assistant log entry, resets the buffer to empty, clears the streaming
flag and emits nothing; in particular, from an empty buffer, the chunks
`Hel` (not done) and `lo` (done) append exactly one entry holding their
concatenation and leave the buffer empty. -/
theorem streaming_buffer_finalize :
    (∀ (m : Model) (msg : Message) (p : TextPayload),
        msg.type = "text" → unmarshalText msg.payload = some p → p.done = true →
        (m.handleProtocolMsg msg).1.messages =
            m.messages ++ [⟨"assistant", .plain (m.streamingText ++ p.content), false, ""⟩]
          ∧ (m.handleProtocolMsg msg).1.streamingText = ""
          ∧ (m.handleProtocolMsg msg).1.isStreaming = false
          ∧ (m.handleProtocolMsg msg).2.1 = [])
    ∧ (∀ (m : Model) (msg1 msg2 : Message) (p1 p2 : TextPayload),
        m.streamingText = "" →
        msg1.type = "text" → unmarshalText msg1.payload = some p1 → p1.done = false →
        msg2.type = "text" → unmarshalText msg2.payload = some p2 → p2.done = true →
        ((m.handleProtocolMsg msg1).1.handleProtocolMsg msg2).1.messages =
            m.messages ++ [⟨"assistant", .plain (p1.content ++ p2.content), false, ""⟩]
          ∧ ((m.handleProtocolMsg msg1).1.handleProtocolMsg msg2).1.streamingText = "") := by
  constructor
  · intro m msg p ht hp hd
    obtain ⟨t, mid, pl⟩ := msg
    subst ht
    simp_all [Model.handleProtocolMsg]
  · intro m msg1 msg2 p1 p2 hs h1 hp1 hd1 h2 hp2 hd2
    obtain ⟨t1, mid1, pl1⟩ := msg1
    obtain ⟨t2, mid2, pl2⟩ := msg2
    subst h1; subst h2
    simp_all [Model.handleProtocolMsg]

/-- Witness for claim C3 at the spec's concrete input: `Hel` then `lo`
from the initial model produce the single assistant entry `Hello` and an
empty buffer. -/
theorem streaming_buffer_finalize_witness :
    ((newModel.handleProtocolMsg textMsgHel).1.handleProtocolMsg textMsgLo).1.messages =
        newModel.messages ++ [⟨"assistant", .plain ("Hel" ++ "lo"), false, ""⟩]
      ∧ ((newModel.handleProtocolMsg textMsgHel).1.handleProtocolMsg textMsgLo).1.streamingText = "" :=
  streaming_buffer_finalize.2 newModel textMsgHel textMsgLo
    { content := "Hel", done := false } { content := "lo", done := true }
    rfl rfl (by decide) rfl rfl (by decide) rfl

/-- Counterexample to claim C4 as stated: a reachable trace — form
request `A`, then a markdown envelope with a malformed payload (raising a
decode error while the request is pending), then any key — ends in the
Active (chat) mode, not in the prior AwaitingForm mode, while the pending
form request still exists; so the mode is Active although a pending
interactive request of kind form exists, and the request is stranded. -/
theorem error_anykey_returns_to_active_cex :
    ((newModel.update (.protocol formMsgA)).1.update (.protocol badMarkdownMsg)).1.state = State.error
    ∧ ((newModel.update (.protocol formMsgA)).1.update (.protocol badMarkdownMsg)).1.currentForm.isSome = true
    ∧ (((newModel.update (.protocol formMsgA)).1.update (.protocol badMarkdownMsg)).1.update (.key "x")).1.state = State.chat
    ∧ (((newModel.update (.protocol formMsgA)).1.update (.protocol badMarkdownMsg)).1.update (.key "x")).1.state ≠ State.form
    ∧ (((newModel.update (.protocol formMsgA)).1.update (.protocol badMarkdownMsg)).1.update (.key "x")).1.currentForm.isSome = true := by
  decide

/-- Claim C4 as amended: from `ErrorDisplay`, any key other than `ctrl+c`
always returns the session to the Active (chat) mode — never to the prior
Awaiting mode — while every stored pending interactive request of every
kind (form, confirm and select) and every stored correlation id are left
in place (not dropped) and the error is cleared; hence after an error
raised during a pending request the mode no longer matches the pending
request, which is left stranded. -/
theorem error_anykey_strands_pending (m : Model) (k : String)
    (hs : m.state = State.error) (hk1 : k ≠ "ctrl+c") (hk2 : k ≠ "") :
    (m.update (.key k)).1.state = State.chat
    ∧ (m.update (.key k)).1.currentForm = m.currentForm
    ∧ (m.update (.key k)).1.currentFormID = m.currentFormID
    ∧ (m.update (.key k)).1.currentConfirm = m.currentConfirm
    ∧ (m.update (.key k)).1.currentConfirmID = m.currentConfirmID
    ∧ (m.update (.key k)).1.currentSelect = m.currentSelect
    ∧ (m.update (.key k)).1.currentSelectID = m.currentSelectID
    ∧ (m.update (.key k)).1.lastError = none := by
  have h1 : m.update (.key k) = ({ m with state := .chat, lastError := none }).handleChatKeys k := by
    simp [Model.update, hk1, hk2, hs, Model.handleKeyMsg]
  rw [h1]
  have h2 := handleChatKeys_preserves { m with state := State.chat, lastError := none } k
  exact ⟨h2.1, h2.2.1, h2.2.2.1, h2.2.2.2.1, h2.2.2.2.2.1, h2.2.2.2.2.2.1,
    h2.2.2.2.2.2.2.1, h2.2.2.2.2.2.2.2⟩

/-- Witness for the amended claim C4 at a concrete error state in which a
pending form request is actually stored. -/
theorem error_anykey_strands_pending_witness :
    ((preC4.update (.key "x")).1.state = State.chat
    ∧ (preC4.update (.key "x")).1.currentForm = preC4.currentForm
    ∧ (preC4.update (.key "x")).1.currentFormID = preC4.currentFormID
    ∧ (preC4.update (.key "x")).1.currentConfirm = preC4.currentConfirm
    ∧ (preC4.update (.key "x")).1.currentConfirmID = preC4.currentConfirmID
    ∧ (preC4.update (.key "x")).1.currentSelect = preC4.currentSelect
    ∧ (preC4.update (.key "x")).1.currentSelectID = preC4.currentSelectID
    ∧ (preC4.update (.key "x")).1.lastError = none)
    ∧ preC4.currentForm.isSome = true :=
  ⟨error_anykey_strands_pending preC4 "x" rfl (by decide) (by decide), by decide⟩

/-- Counterexample to claim C5 as stated: `done` is a recognized type
(its handler parses a payload), the payload with a numeric `summary`
fails its schema, yet the reducer does not transition to `ErrorDisplay`
and records no error. -/
theorem payload_schema_error_done_exception_cex :
    (payloadDecodes "done" badDoneMsg.payload = false)
    ∧ badDoneMsg.type = "done"
    ∧ (newModel.handleProtocolMsg badDoneMsg).1.state ≠ State.error
    ∧ (newModel.handleProtocolMsg badDoneMsg).1.lastError = none := by
  refine ⟨by decide, rfl, by decide, rfl⟩

/-- Claim C5 as amended: for every recognized payload-parsing type except
`done`, an envelope whose payload fails schema decoding transitions to
`ErrorDisplay` with a non-retryable error; the transition changes only
the mode and the error record, so any pre-existing pending interactive
request with its stored correlation id, the conversation log and the
streaming buffer are unchanged, and no outbound message is emitted. -/
theorem payload_schema_error_display (m : Model) (msg : Message)
    (ht : msg.type ∈ schemaErrorTypes)
    (hd : payloadDecodes msg.type msg.payload = false) :
    m.handleProtocolMsg msg =
      ({ m with
          state := .error,
          lastError := some ⟨invalidPayloadMessage msg.type, decodeErrDetails, false⟩ },
       [], some Cmd.listen) :=
  handleProtocolMsg_badPayload m msg ht hd

/-- Witness for the amended claim C5 at the spec's concrete input: the
form envelope with `fields` not an array, processed in a state with a
pending form, a log and a streaming buffer. -/
theorem payload_schema_error_display_witness :
    preC5.handleProtocolMsg badFormMsg =
      ({ preC5 with
          state := .error,
          lastError := some ⟨invalidPayloadMessage "form", decodeErrDetails, false⟩ },
       [], some Cmd.listen) :=
  payload_schema_error_display preC5 badFormMsg (by decide) (by decide)

/-- Counterexample to claim C6 as stated: after the streaming chunk `Hel`
the buffer holds `Hel`; processing a clear with scope `chat` empties the
log but leaves the streaming buffer holding `Hel`, not empty. -/
theorem clear_chat_keeps_streaming_buffer_cex :
    (newModel.handleProtocolMsg textMsgHel).1.streamingText = "Hel"
    ∧ ((newModel.handleProtocolMsg textMsgHel).1.handleProtocolMsg clearChatMsg).1.streamingText = "Hel"
    ∧ ((newModel.handleProtocolMsg textMsgHel).1.handleProtocolMsg clearChatMsg).1.streamingText ≠ ""
    ∧ ((newModel.handleProtocolMsg textMsgHel).1.handleProtocolMsg clearChatMsg).1.messages = [] := by
  refine ⟨rfl, rfl, by decide, rfl⟩

/-- Claim C6 as amended: a clear message with a well-formed payload
empties the conversation log when the scope is `chat` or `all` and clears
the progress overlay when the scope is `progress` or `all`; everything
else — in particular the streaming buffer and the primary UI mode — is
unchanged, and nothing is emitted. -/
theorem clear_scopes_exact (m : Model) (msg : Message) (p : ClearPayload)
    (ht : msg.type = "clear") (hp : unmarshalClear msg.payload = some p) :
    m.handleProtocolMsg msg =
      ({ m with
          messages := if p.scope = "chat" ∨ p.scope = "all" then [] else m.messages,
          currentProgress :=
            if p.scope = "progress" ∨ p.scope = "all" then false else m.currentProgress },
       [], some Cmd.listen) := by
  obtain ⟨t, mid, pl⟩ := msg
  subst ht
  by_cases h1 : p.scope = "chat" ∨ p.scope = "all" <;>
    by_cases h2 : p.scope = "progress" ∨ p.scope = "all" <;>
      simp_all [Model.handleProtocolMsg]

/-- Witness for the amended claim C6: clear with scope `chat` after the
streaming chunk `Hel`. -/
theorem clear_scopes_exact_witness :
    (newModel.handleProtocolMsg textMsgHel).1.handleProtocolMsg clearChatMsg =
      ({ (newModel.handleProtocolMsg textMsgHel).1 with
          messages := if "chat" = "chat" ∨ "chat" = "all" then []
                      else (newModel.handleProtocolMsg textMsgHel).1.messages,
          currentProgress :=
            if "chat" = "progress" ∨ "chat" = "all" then false
            else (newModel.handleProtocolMsg textMsgHel).1.currentProgress },
       [], some Cmd.listen) :=
  clear_scopes_exact (newModel.handleProtocolMsg textMsgHel).1 clearChatMsg
    { scope := "chat" } rfl (by decide)

/-- Claim C7: over every starting model, channel state and select
schedule, the consumer loop delivers at most one `connectionClosedMsg`
(the closed event returns no `listen` command, so the event sources are
never polled again), and processing the closed event records the
`Connection closed` error as non-retryable in the `ErrorDisplay` mode. -/
theorem single_terminal_close (m : Model) (ch : Channels) (sched : List Bool) :
    countClosed (runLoop m ch sched) ≤ 1
    ∧ (m.update .connectionClosed).2.2 = none
    ∧ (m.update .connectionClosed).1.lastError =
        some ⟨"Connection closed", "The Python process has disconnected", false⟩
    ∧ (m.update .connectionClosed).1.state = State.error :=
  ⟨single_closed_aux m ch sched, rfl, rfl, rfl⟩

/-- Claim C8: for every envelope decoder, line sequence and terminating
I/O failure, the read pump delivers exactly the decodable non-blank
lines in order, reports exactly the decode failures of the non-blank
lines (continuing past each) followed by the I/O failure when it is not
EOF, closes the incoming queue, and never stops the transport's write
side. -/
theorem readLoop_contract (decodeLine : String → Except String Message)
    (lines : List String) (e : IOError) :
    (readLoop decodeLine lines e).incomingClosed = true
    ∧ (readLoop decodeLine lines e).stopCalled = false
    ∧ (readLoop decodeLine lines e).delivered =
        (lines.filter (fun s => !isBlankLine s)).filterMap
          (fun s => decodeOkOf (decodeLine s))
    ∧ (readLoop decodeLine lines e).reported =
        ((lines.filter (fun s => !isBlankLine s)).filterMap
          (fun s => decodeErrOf (decodeLine s)))
          ++ (match e with | .eof => [] | .other s => [s]) := by
  induction lines with
  | nil => cases e <;> simp [readLoop]
  | cons line rest ih =>
    by_cases hb : isBlankLine line = true
    · simp [readLoop, hb, ih]
    · cases hd : decodeLine line <;>
        simp [readLoop, hb, hd, decodeOkOf, decodeErrOf, ih]

/-- Counterexample to claim C9 as stated: a second `start()` on a fresh
transport does not leave it in the state after the first call — it
launches a second read pump and a second write pump. -/
theorem start_double_launch_cex :
    newHandler.start.start ≠ newHandler.start
    ∧ newHandler.start.readPumps = 1
    ∧ newHandler.start.start.readPumps = 2
    ∧ newHandler.start.start.writePumps = 2 := by
  decide

/-- Claim C9 as amended: `start()` launches one read pump and one write
pump on every call and has no guard against double-start: a second call
launches an additional pump pair (and leaves the shutdown flag alone). -/
theorem start_launches_pumps_every_call (h : Handler) :
    h.start.readPumps = h.readPumps + 1
    ∧ h.start.writePumps = h.writePumps + 1
    ∧ h.start.start.readPumps = h.readPumps + 2
    ∧ h.start.start.writePumps = h.writePumps + 2
    ∧ h.start.doneClosed = h.doneClosed := by
  simp [Handler.start]

/-- Claim C10: a `done` message — even one whose payload fails the done
schema — never enters `ErrorDisplay`: the mode and error record are
unchanged, the streaming flag and the progress overlay are cleared, and
the status message becomes the (partially) decoded summary when it is a
non-empty string and `Ready` otherwise; and `done` is the only recognized
payload-parsing type with this behaviour — every other one surfaces a
malformed payload as the error mode. -/
theorem done_payload_decode_error_ignored (m : Model) (msg : Message)
    (ht : msg.type = "done") :
    m.handleProtocolMsg msg =
      ({ m with
          isStreaming := false, currentProgress := false,
          statusMessage :=
            if (unmarshalDone msg.payload).1.summary ≠ "" then
              (unmarshalDone msg.payload).1.summary
            else "Ready" },
       [], some Cmd.listen)
    ∧ (m.handleProtocolMsg msg).1.state = m.state
    ∧ (m.handleProtocolMsg msg).1.lastError = m.lastError
    ∧ (∀ (m2 : Model) (msg2 : Message), msg2.type ∈ schemaErrorTypes →
         payloadDecodes msg2.type msg2.payload = false →
         (m2.handleProtocolMsg msg2).1.state = State.error) := by
  obtain ⟨t, mid, pl⟩ := msg
  subst ht
  refine ⟨?_, ?_, ?_, ?_⟩
  · simp [Model.handleProtocolMsg]
  · simp [Model.handleProtocolMsg]
  · simp [Model.handleProtocolMsg]
  · intro m2 msg2 ht2 hd2
    rw [handleProtocolMsg_badPayload m2 msg2 ht2 hd2]

/-- Witness for claim C10 at the concrete malformed done payload: the
mode is unchanged, the status falls back to `Ready`, and the payload
indeed fails its schema. -/
theorem done_payload_decode_error_ignored_witness :
    (newModel.handleProtocolMsg badDoneMsg).1.state = newModel.state
    ∧ (newModel.handleProtocolMsg badDoneMsg).1.statusMessage = "Ready"
    ∧ (unmarshalDone badDoneMsg.payload).2 = false := by
  have h := done_payload_decode_error_ignored newModel badDoneMsg rfl
  refine ⟨h.2.1, ?_, by decide⟩
  rw [h.1]
  decide

end AgentUI
